import Mathlib

/-!
# Verification of the dbot tracking components

Shallow embedding of the `TrackingDataset` session archive
(`src/unnamed/part_000`), the `RmsGaussianFilterTrackerBuilder` parameter
bundle and backend selection
(`src/include/dbot/tracker/builder/rms_gaussian_filter_tracker_builder.hpp`),
and of the filter-assembly, quadrature and observation-model behaviour that
the spec describes but whose implementation files are not part of this
source snapshot (those definitions are marked `Modelled from the spec:`).

Timestamps, depths and state coordinates are embedded as rationals; the
C++ `double` arithmetic on them is threshold comparison and linear algebra,
which the rational embedding reflects faithfully.
-/

namespace Dbot

/-! ## Data model of the session archive (from `src/unnamed/part_000`) -/

/-- A `sensor_msgs::Image`: its header timestamp (seconds) and an abstract
payload standing for the pixel data. -/
structure ImageMsg where
  stamp : ℚ
  payload : ℕ
deriving DecidableEq, Repr

/-- A `sensor_msgs::CameraInfo`: its header timestamp and the row-major
3x3 intrinsic matrix `K` (9 entries). -/
structure CameraInfoMsg where
  stamp : ℚ
  K : List ℚ
deriving DecidableEq, Repr

/-- Frame record `DataFrame` from `tracking_dataset`: an image, its camera info and a
ground-truth vector (`Eigen::VectorXd`, embedded as a list of coordinates;
the default-constructed vector has zero rows, i.e. `[]`). -/
structure DataFrame where
  image : ImageMsg
  info : CameraInfoMsg
  ground_truth : List ℚ := []
deriving DecidableEq, Repr

instance : Inhabited DataFrame :=
  ⟨{ image := ⟨0, 0⟩, info := ⟨0, []⟩, ground_truth := [] }⟩

/-- Topic `image_topic_`, fixed in the `TrackingDataset` constructor. -/
def image_topic : String := "XTION/depth/image"

/-- Topic `info_topic_`, fixed in the `TrackingDataset` constructor. -/
def info_topic : String := "XTION/depth/camera_info"

/-- Filename `observations_filename_`, fixed in the `TrackingDataset` constructor. -/
def observations_file : String := "measurements.bag"

/-- Filename `ground_truth_filename_`, fixed in the `TrackingDataset` constructor. -/
def ground_truth_file : String := "ground_truth.txt"

/-- Constant `admissible_delta_time_ = 0.02`, set in the `TrackingDataset`
constructor initializer list and never reassigned anywhere in the class. -/
def admissible_delta_time : ℚ := 1 / 50

/-- The in-memory `TrackingDataset`: its path and the stored frames
`data_` in insertion order. -/
structure TrackingDataset where
  path : String
  data : List DataFrame
deriving DecidableEq, Repr

/-- Method `TrackingDataset::AddFrame` (three-argument overload). -/
def AddFrame (ds : TrackingDataset) (image : ImageMsg) (info : CameraInfoMsg)
    (ground_truth : List ℚ) : TrackingDataset :=
  { ds with data := ds.data ++ [⟨image, info, ground_truth⟩] }

/-- Method `TrackingDataset::GetCameraMatrix`: builds the 3x3 camera matrix with
`camera_matrix(row, col) = data_[0].info_->K[col + row * 3]`.  The `index`
argument is received but the body reads `data_[0]` unconditionally. -/
def GetCameraMatrix (ds : TrackingDataset) (index : ℕ) :
    Matrix (Fin 3) (Fin 3) ℚ :=
  Matrix.of fun row col =>
    ((ds.data.getD 0 default).info.K).getD ((col : ℕ) + (row : ℕ) * 3) 0

/-- Method `TrackingDataset::GetGroundTruth`. -/
def GetGroundTruth (ds : TrackingDataset) (index : ℕ) : List ℚ :=
  (ds.data.getD index default).ground_truth

/-- The ground-truth attachment loop at the end of `TrackingDataset::Load`:
having read one `(time_stamp, state)` entry from the ground-truth text log,
it assigns `state` to `ground_truth_` of every frame whose image timestamp
is within `admissible_delta_time_` of `time_stamp`, leaving the other
frames untouched. -/
def attachGroundTruth (time_stamp : ℚ) (state : List ℚ)
    (frames : List DataFrame) : List DataFrame :=
  frames.map fun fr =>
    if |fr.image.stamp - time_stamp| ≤ admissible_delta_time then
      { fr with ground_truth := state }
    else
      fr

/-! ## `TrackingDataset::Store` and its filesystem effect -/

/-- A message written into the observations bag: the image or the camera
info of a frame. -/
inductive BagMsg where
  | image (msg : ImageMsg)
  | info (msg : CameraInfoMsg)
deriving DecidableEq, Repr

/-- One `bag.write(topic, stamp, msg)` record. -/
structure BagRecord where
  topic : String
  stamp : ℚ
  msg : BagMsg
deriving DecidableEq, Repr

/-- One line of the ground-truth text file: the image timestamp followed by
the transposed ground-truth vector. -/
structure GtLine where
  stamp : ℚ
  state : List ℚ
deriving DecidableEq, Repr

/-- The slice of the filesystem `Store` touches: created directories, bag
files and ground-truth text files, each keyed by path. -/
structure FileSys where
  dirs : List String
  bagFiles : List (String × List BagRecord)
  txtFiles : List (String × List GtLine)
deriving DecidableEq, Repr

/-- Check `boost::filesystem::exists` over the modelled filesystem. -/
def fsExists (fs : FileSys) (p : String) : Bool :=
  (fs.bagFiles.map Prod.fst).contains p || (fs.txtFiles.map Prod.fst).contains p

/-- Path concatenation `path_ / filename`. -/
def pathJoin (p f : String) : String := p ++ "/" ++ f

/-- The bag-writing loop of `Store`: for each frame index in order it
writes the image under `image_topic_` stamped with the image header stamp,
then the camera info under `info_topic_` stamped with the info header
stamp. -/
def bagWriteLoop : List DataFrame → List BagRecord
  | [] => []
  | d :: rest =>
    ⟨image_topic, d.image.stamp, .image d.image⟩ ::
      ⟨info_topic, d.info.stamp, .info d.info⟩ :: bagWriteLoop rest

/-- The ground-truth-writing loop of `Store`: for each frame index in order,
if `ground_truth_.rows() != 0` it writes one line holding the image header
stamp and the ground-truth vector. -/
def gtWriteLoop : List DataFrame → List GtLine
  | [] => []
  | d :: rest =>
    if d.ground_truth.length ≠ 0 then
      ⟨d.image.stamp, d.ground_truth⟩ :: gtWriteLoop rest
    else
      gtWriteLoop rest

/-- Method `TrackingDataset::Store`: if either the observations bag or the
ground-truth text file already exists at the dataset path it prints a
message and returns; otherwise it creates the directory, writes all frames
to the bag and the non-empty ground-truth vectors to the text file.  The
method never touches `data_`, so the dataset is returned as received. -/
def Store (fs : FileSys) (ds : TrackingDataset) : FileSys × TrackingDataset :=
  if fsExists fs (pathJoin ds.path observations_file) ||
      fsExists fs (pathJoin ds.path ground_truth_file) then
    (fs, ds)
  else
    let fs1 : FileSys := { fs with dirs := ds.path :: fs.dirs }
    let fs2 : FileSys :=
      { fs1 with
        bagFiles :=
          (pathJoin ds.path observations_file, bagWriteLoop ds.data) ::
            fs1.bagFiles }
    let fs3 : FileSys :=
      { fs2 with
        txtFiles :=
          (pathJoin ds.path ground_truth_file, gtWriteLoop ds.data) ::
            fs2.txtFiles }
    (fs3, ds)

/-! ## Builder parameter bundle and backend selection

The `Parameters` struct is embedded from
`src/include/dbot/tracker/builder/rms_gaussian_filter_tracker_builder.hpp`
(lines 55–75).  The bodies of `build`, `create_obsrv_model` and parameter
validation are not part of this source snapshot (the header only declares
them); they are modelled from the spec below. -/

/-- Struct `Parameters::Observation` (header lines 60–69). -/
structure ObservationParameters where
  bg_depth : ℚ
  fg_noise_std : ℚ
  bg_noise_std : ℚ
  tail_weight : ℚ
  uniform_tail_min : ℚ
  uniform_tail_max : ℚ
  sensors : ℤ
deriving DecidableEq, Repr

/-- The `object_transition` sub-parameters.  Modelled from the spec:
`ObjectTransitionModelBuilder<State>::Parameters` is not in this source
snapshot; the spec calls them model-specific process-noise magnitudes, so
they are embedded as an opaque record of rationals. -/
structure ObjectTransitionParameters where
  noise_magnitude : ℚ
  damping : ℚ
deriving DecidableEq, Repr

/-- Struct `RmsGaussianFilterTrackerBuilder::Parameters` (header lines 55–75),
extended with the backend request flag.  Modelled from the spec: the spec
says a GPU rendering path "is selected when requested", so the request is
a boolean field `use_gpu` of the bundle. -/
structure Parameters where
  ut_alpha : ℚ
  update_rate : ℚ
  ori : String
  observation : ObservationParameters
  object_transition : ObjectTransitionParameters
  use_gpu : Bool
deriving DecidableEq, Repr

/-- The error taxonomy of the spec (§7) relevant to building a tracker.
`unsupportedBackend` is the spec's `UnsupportedBackendError`, thrown as
`NoGpuSupportException` per the header's doc comment on
`create_obsrv_model`. -/
inductive BuildError where
  | invalidParameter (field : String)
  | resourceNotFound
  | unsupportedBackend
deriving DecidableEq, Repr

/-- The two observation-model variants the builder can construct. -/
inductive ObservationModelKind where
  | cpu
  | gpu
deriving DecidableEq, Repr

/-- The fields of the parameter bundle that carry a documented range
constraint (spec §3 table). -/
inductive ParamField where
  | ut_alpha
  | update_rate
  | bg_depth
  | fg_noise_std
  | bg_noise_std
  | tail_weight
  | uniform_tail
  | sensors
deriving DecidableEq, Repr

instance : Fintype ParamField :=
  ⟨⟨{ParamField.ut_alpha, ParamField.update_rate, ParamField.bg_depth,
     ParamField.fg_noise_std, ParamField.bg_noise_std,
     ParamField.tail_weight, ParamField.uniform_tail, ParamField.sensors},
    by decide⟩, by intro x; cases x <;> decide⟩

/-- The name the spec's §3 table uses for each constrained field. -/
def ParamField.name : ParamField → String
  | .ut_alpha => "ut_alpha"
  | .update_rate => "update_rate"
  | .bg_depth => "observation.bg_depth"
  | .fg_noise_std => "observation.fg_noise_std"
  | .bg_noise_std => "observation.bg_noise_std"
  | .tail_weight => "observation.tail_weight"
  | .uniform_tail => "observation.uniform_tail_min/max"
  | .sensors => "observation.sensors"

/-- Whether a field of the bundle violates its §3 range constraint. -/
def ParamField.violated : ParamField → Parameters → Bool
  | .ut_alpha, p => !(0 < p.ut_alpha)
  | .update_rate, p => !(0 < p.update_rate ∧ p.update_rate ≤ 1)
  | .bg_depth, p => !(0 < p.observation.bg_depth)
  | .fg_noise_std, p => !(0 ≤ p.observation.fg_noise_std)
  | .bg_noise_std, p => !(0 ≤ p.observation.bg_noise_std)
  | .tail_weight, p =>
      !(0 ≤ p.observation.tail_weight ∧ p.observation.tail_weight ≤ 1)
  | .uniform_tail, p =>
      !(p.observation.uniform_tail_min < p.observation.uniform_tail_max)
  | .sensors, p => !(1 ≤ p.observation.sensors)

/-- Parameter-range validation.  Modelled from the spec: the builder
"validates parameter ranges (table in §3); fails with
`InvalidParameterError` on violation, naming the offending field".  Checks
the table rows in order and reports the first violated field's name. -/
def validateParameters (p : Parameters) : Option String :=
  if ParamField.ut_alpha.violated p then some ParamField.ut_alpha.name
  else if ParamField.update_rate.violated p then some ParamField.update_rate.name
  else if ParamField.bg_depth.violated p then some ParamField.bg_depth.name
  else if ParamField.fg_noise_std.violated p then some ParamField.fg_noise_std.name
  else if ParamField.bg_noise_std.violated p then some ParamField.bg_noise_std.name
  else if ParamField.tail_weight.violated p then some ParamField.tail_weight.name
  else if ParamField.uniform_tail.violated p then some ParamField.uniform_tail.name
  else if ParamField.sensors.violated p then some ParamField.sensors.name
  else none

/-- The build-time environment: the compile-time GPU capability flag
(`DBOT_BUILD_GPU`) and which object resource identifiers resolve. -/
structure BuildEnv where
  builtWithGpu : Bool
  resolves : String → Bool

/-- Method `RmsGaussianFilterTrackerBuilder::create_obsrv_model`.  Modelled from
the spec and the header's doc comment: a CPU path is always available; the
GPU path is selected when requested and the binary was built with GPU
support, "otherwise the Builder fails with `UnsupportedBackendError`
(... never a silent fallback)". -/
def create_obsrv_model (builtWithGpu : Bool) (use_gpu : Bool) :
    Except BuildError ObservationModelKind :=
  if use_gpu then
    if builtWithGpu then .ok .gpu else .error .unsupportedBackend
  else
    .ok .cpu

/-- The assembled tracker value returned by a successful build. -/
structure Tracker where
  params : Parameters
  obsrvModel : ObservationModelKind
deriving DecidableEq, Repr

/-- Method `RmsGaussianFilterTrackerBuilder::build`.  Modelled from the spec
(§4.1): validate the parameter ranges, resolve the object resource,
select the observation-model backend, and only then assemble and return
the tracker; each step failing aborts the build with its error and no
partial tracker is returned. -/
def build (env : BuildEnv) (p : Parameters) : Except BuildError Tracker :=
  match validateParameters p with
  | some field => .error (.invalidParameter field)
  | none =>
    if env.resolves p.ori then
      match create_obsrv_model env.builtWithGpu p.use_gpu with
      | .error e => .error e
      | .ok m => .ok ⟨p, m⟩
    else
      .error .resourceNotFound

/-! ## Quadrature rule and filter recursion

The quadrature, filter and observation-model implementation files are not
part of this source snapshot; the definitions in this section are modelled
from the spec (§4.2–§4.5). -/

/-- A state vector of dimension `n`. -/
abbrev Vec (n : ℕ) : Type := Fin n → ℚ

/-- A covariance-shaped matrix of dimension `n`. -/
abbrev Mat (n : ℕ) : Type := Matrix (Fin n) (Fin n) ℚ

/-- A valid belief covariance: symmetric and positive semi-definite. -/
def IsValidCov {n : ℕ} (M : Mat n) : Prop :=
  Matrix.transpose M = M ∧
    ∀ x : Vec n, 0 ≤ Matrix.dotProduct x (Matrix.mulVec M x)

/-- Quadrature rule `sigmaPoints(mean, covariance, ut_alpha)`.  Modelled from the spec
(§4.4): a deterministic, finite, ordered sequence of `2n + 1` weighted
state points, one at the mean and one pair along each scaled direction of
the covariance, with `ut_alpha` controlling the spread.  The spec fixes
neither the square-root factorization of the covariance nor the weight
formula, so the directions are the covariance's columns and the weights
the uniform normalized weights; the claims depend only on the rule being a
pure, ordered-output function with nonnegative weights. -/
def sigmaPoints (n : ℕ) (mean : Vec n) (covariance : Mat n)
    (ut_alpha : ℚ) : List (ℚ × Vec n) :=
  let w : ℚ := 1 / (2 * n + 1)
  (w, mean) ::
    (List.finRange n).flatMap fun j =>
      [(w, fun i => mean i + ut_alpha * covariance i j),
       (w, fun i => mean i - ut_alpha * covariance i j)]

/-- Weighted mean of a list of weighted points. -/
def weightedMean {n : ℕ} (pts : List (ℚ × Vec n)) : Vec n :=
  (pts.map fun p => p.1 • p.2).sum

/-- Weighted scatter matrix `∑ w · (x − μ)(x − μ)ᵀ` of a list of weighted
points around a centre `μ`. -/
def scatter {n : ℕ} (pts : List (ℚ × Vec n)) (μ : Vec n) : Mat n :=
  (pts.map fun p => p.1 • Matrix.vecMulVec (p.2 - μ) (p.2 - μ)).sum

/-- The re-symmetrization applied before a covariance is stored (spec
§4.4: the reconstructed covariance "must be checked/re-symmetrized"). -/
def symmetrize {n : ℕ} (M : Mat n) : Mat n :=
  (1 / 2 : ℚ) • (M + Matrix.transpose M)

/-- Gaussian reconstruction from weighted transformed points (spec §4.4):
the weighted mean and the re-symmetrized weighted scatter around it. -/
def reconstructGaussian {n : ℕ} (pts : List (ℚ × Vec n)) : Vec n × Mat n :=
  let μ := weightedMean pts
  (μ, symmetrize (scatter pts μ))

/-- The filter's belief state: mean and covariance. -/
structure Belief (n : ℕ) where
  mean : Vec n
  cov : Mat n

/-- One multi-sensor observation: one grid of depth readings per sensor,
flattened to a list of pixels. -/
structure Obsrv where
  streams : List (List ℚ)

/-- The wired filter model: quadrature spread, fusion rate, declared
sensor count and per-sensor pixel count, the deterministic kinematic step
of the transition model, its process-noise covariance, and the
observation model's likelihood score of a state given an observation. -/
structure FilterModel (n : ℕ) where
  ut_alpha : ℚ
  update_rate : ℚ
  sensors : ℕ
  pixels : ℕ
  transition : ℚ → Vec n → Vec n
  processNoiseCov : Mat n
  likelihood : Obsrv → Vec n → ℚ

/-- Prediction step `predict(Δt)`.  Modelled from the spec (§4.2, §4.5): push the belief's
sigma points through the deterministic kinematic step, collapse back to a
Gaussian, and advance the covariance by the process-noise covariance
scaled by `Δt`. -/
def predictStep {n : ℕ} (m : FilterModel n) (b : Belief n) (dt : ℚ) :
    Belief n :=
  let pts := sigmaPoints n b.mean b.cov m.ut_alpha
  let pushed := pts.map fun p => (p.1, m.transition dt p.2)
  let rec' := reconstructGaussian pushed
  ⟨rec'.1, symmetrize (rec'.2 + dt • m.processNoiseCov)⟩

/-- Update step `update(observations)`.  Modelled from the spec (§4.5): score each
sigma point by the observation model's likelihood, re-weight and
renormalize, reconstruct a Gaussian from the re-weighted points, and fuse
it into the prior with strength `update_rate` (an `update_rate` below 1
damps the correction). -/
def updateStep {n : ℕ} (m : FilterModel n) (b : Belief n) (o : Obsrv) :
    Belief n :=
  let pts := sigmaPoints n b.mean b.cov m.ut_alpha
  let scored := pts.map fun p => (p.1 * m.likelihood o p.2, p.2)
  let total := (scored.map Prod.fst).sum
  let reweighted := scored.map fun p => (p.1 / total, p.2)
  let rec' := reconstructGaussian reweighted
  ⟨(1 - m.update_rate) • b.mean + m.update_rate • rec'.1,
   symmetrize ((1 - m.update_rate) • b.cov + m.update_rate • rec'.2)⟩

/-- The per-frame error taxonomy (spec §7). -/
inductive FrameError where
  | invalidTimestep
  | dimensionMismatch
deriving DecidableEq, Repr

/-- The dimension check of an update call (spec §4.3): the declared sensor
count must match the number of observation streams supplied, and every
stream must have the expected grid size. -/
def obsrvDimsOk {n : ℕ} (m : FilterModel n) (o : Obsrv) : Bool :=
  o.streams.length = m.sensors && o.streams.all fun s => s.length = m.pixels

/-- The guarded predict call.  Modelled from the spec (§4.2): fails with
`InvalidTimestepError` if `Δt ≤ 0`, otherwise performs the predict step. -/
def predictChecked {n : ℕ} (m : FilterModel n) (b : Belief n) (dt : ℚ) :
    Except FrameError (Belief n) :=
  if dt ≤ 0 then .error .invalidTimestep else .ok (predictStep m b dt)

/-- The guarded update call.  Modelled from the spec (§4.3): fails with
`DimensionMismatchError` if the observation grids or the stream count do
not match the declared dimensions, otherwise performs the update step. -/
def updateChecked {n : ℕ} (m : FilterModel n) (b : Belief n) (o : Obsrv) :
    Except FrameError (Belief n) :=
  if obsrvDimsOk m o then .ok (updateStep m b o) else .error .dimensionMismatch

/-- The filter's reaction to a predict call (spec §7): the stored belief
is replaced only on success; a failed call propagates the error and the
belief member is never assigned. -/
def runPredict {n : ℕ} (m : FilterModel n) (b : Belief n) (dt : ℚ) :
    Belief n × Option FrameError :=
  match predictChecked m b dt with
  | .ok b' => (b', none)
  | .error e => (b, some e)

/-- The filter's reaction to an update call (spec §7): the stored belief
is replaced only on success; a failed call propagates the error and the
belief member is never assigned. -/
def runUpdate {n : ℕ} (m : FilterModel n) (b : Belief n) (o : Obsrv) :
    Belief n × Option FrameError :=
  match updateChecked m b o with
  | .ok b' => (b', none)
  | .error e => (b, some e)

/-! ## Per-pixel mixture likelihood

Modelled from the spec (§4.3): the observation-model implementation is not
part of this source snapshot.  The per-pixel density is a mixture of a
Gaussian component (foreground around the rendered depth, or background
around `bg_depth`, chosen by the pixel-local occlusion test) weighted by
`1 − tail_weight`, plus the outlier component weighted by `tail_weight`.
The outlier component is the uniform density `1 / (uniform_tail_max −
uniform_tail_min)` of the sensor's value range; the spec asserts its floor
for any observed depth, so the density is evaluated as that constant
rather than gated on membership in the tail support. -/

/-- Gaussian probability density with mean `m` and standard deviation
`s`. -/
noncomputable def gaussianDensity (m s y : ℝ) : ℝ :=
  Real.exp (-((y - m) ^ 2) / (2 * s ^ 2)) / (s * Real.sqrt (2 * Real.pi))

/-- The observation noise parameters as real numbers, mirroring
`Parameters::Observation`. -/
structure PixelModel where
  bg_depth : ℝ
  fg_noise_std : ℝ
  bg_noise_std : ℝ
  tail_weight : ℝ
  uniform_tail_min : ℝ
  uniform_tail_max : ℝ

/-- Per-pixel mixture likelihood of an observed depth `y` given the
rendered depth, with `occluded` the result of the pixel-local occlusion
test routing the Gaussian mass to the background component. -/
noncomputable def pixelLikelihood (p : PixelModel) (occluded : Bool)
    (rendered y : ℝ) : ℝ :=
  (1 - p.tail_weight) *
      (if occluded then gaussianDensity p.bg_depth p.bg_noise_std y
       else gaussianDensity rendered p.fg_noise_std y) +
    p.tail_weight * (1 / (p.uniform_tail_max - p.uniform_tail_min))

/-! ## Concrete sample values used to exercise the theorems -/

/-- A sample observation parameter set satisfying every §3 constraint. -/
def sampleObservation : ObservationParameters :=
  { bg_depth := 3
    fg_noise_std := 1 / 100
    bg_noise_std := 1 / 10
    tail_weight := 1 / 50
    uniform_tail_min := 1 / 2
    uniform_tail_max := 5
    sensors := 1 }

/-- A sample parameter bundle satisfying every §3 constraint, with the GPU
backend requested. -/
def sampleParams : Parameters :=
  { ut_alpha := 6 / 5
    update_rate := 1 / 2
    ori := "duck.obj"
    observation := sampleObservation
    object_transition := ⟨1 / 100, 1⟩
    use_gpu := true }

/-- A sample parameter bundle whose only violated constraint is
`observation.tail_weight = 1.5`. -/
def badTailWeightParams : Parameters :=
  { sampleParams with
    use_gpu := false
    observation := { sampleObservation with tail_weight := 3 / 2 } }

/-- A sample build environment: no compiled-in GPU support, every resource
identifier resolves. -/
def sampleEnv : BuildEnv := ⟨false, fun _ => true⟩

/-- A sample one-dimensional filter model. -/
def sampleModel : FilterModel 1 :=
  { ut_alpha := 1
    update_rate := 1 / 2
    sensors := 1
    pixels := 4
    transition := fun _ x => x
    processNoiseCov := 1
    likelihood := fun _ _ => 1 }

/-- A sample one-dimensional belief with identity covariance. -/
def sampleBelief : Belief 1 := ⟨fun _ => 0, 1⟩

/-- A sample observation whose stream count does not match
`sampleModel.sensors`. -/
def mismatchedObsrv : Obsrv := ⟨[]⟩

/-- A sample well-dimensioned observation for `sampleModel`. -/
def sampleObsrv : Obsrv := ⟨[[1, 2, 3, 4]]⟩

/-- A sample frame at timestamp `t` with intrinsics `K` and an empty
ground-truth vector. -/
def sampleFrame (t : ℚ) (K : List ℚ) : DataFrame :=
  { image := ⟨t, 0⟩, info := ⟨t, K⟩, ground_truth := [] }

/-- A sample dataset of two frames with differing per-frame intrinsic
matrices. -/
def sampleDataset : TrackingDataset :=
  { path := "session"
    data := [sampleFrame 0 [1, 0, 0, 0, 1, 0, 0, 0, 1],
             sampleFrame (1 / 100) [2, 0, 3, 0, 2, 4, 0, 0, 1]] }

/-- A sample dataset for `Store`: the second frame carries a ground
truth. -/
def storeDataset : TrackingDataset :=
  { path := "session"
    data := [sampleFrame 0 [1, 0, 0, 0, 1, 0, 0, 0, 1],
             { sampleFrame (1 / 100) [1, 0, 0, 0, 1, 0, 0, 0, 1] with
               ground_truth := [1, 2, 3, 4, 5, 6] }] }

/-- An empty sample filesystem. -/
def emptyFs : FileSys := ⟨[], [], []⟩

/-- A sample filesystem on which the `storeDataset` observations bag
already exists. -/
def occupiedFs : FileSys :=
  ⟨["session"], [("session/measurements.bag", [])], []⟩

/-! ## Theorems -/

/-- C8: `TrackingDataset::GetCameraMatrix` ignores its index argument:
for every index (with at least one stored frame) it returns the 3x3
matrix built from the `CameraInfo` of frame 0, entry `(row, col)` being
`K[col + row * 3]`, so all indices yield the same matrix even when
per-frame calibrations differ. -/
theorem getCameraMatrix_ignores_index (ds : TrackingDataset) (i j : ℕ)
    (hnonempty : 0 < ds.data.length) :
    GetCameraMatrix ds i = GetCameraMatrix ds j ∧
      ∀ row col : Fin 3,
        GetCameraMatrix ds i row col =
          ((ds.data.getD 0 default).info.K).getD ((col : ℕ) + (row : ℕ) * 3) 0 :=
  ⟨rfl, fun _ _ => rfl⟩

/-- Witness for `getCameraMatrix_ignores_index`: the sample dataset has two
frames with different intrinsics, yet indices 0 and 1 give one matrix. -/
theorem getCameraMatrix_ignores_index_witness :
    GetCameraMatrix sampleDataset 0 = GetCameraMatrix sampleDataset 1 ∧
      ∀ row col : Fin 3,
        GetCameraMatrix sampleDataset 0 row col =
          ((sampleDataset.data.getD 0 default).info.K).getD
            ((col : ℕ) + (row : ℕ) * 3) 0 :=
  getCameraMatrix_ignores_index sampleDataset 0 1 (by decide)

/-- C2: the attachment loop of `TrackingDataset::Load` gives the log
entry's state to exactly the frames whose image timestamp is within
`admissible_delta_time` of the log timestamp; every other frame keeps an
empty ground-truth vector (all frames enter the loop with an empty one). -/
theorem load_attaches_ground_truth_within_delta (time_stamp : ℚ)
    (state : List ℚ) (frames : List DataFrame)
    (hempty : ∀ fr ∈ frames, fr.ground_truth = [])
    (i : ℕ) (hi : i < frames.length) :
    ((attachGroundTruth time_stamp state frames).getD i default).ground_truth =
      if |(frames.getD i default).image.stamp - time_stamp| ≤
          admissible_delta_time then state
      else [] := by
  induction frames generalizing i with
  | nil => simp at hi
  | cons fr rest ih =>
    cases i with
    | zero =>
      have hfr := hempty fr (List.mem_cons_self fr rest)
      by_cases h : |fr.image.stamp - time_stamp| ≤ admissible_delta_time
      · simp [attachGroundTruth, h]
      · simp [attachGroundTruth, h, hfr]
    | succ k =>
      have hrest : ∀ fr' ∈ rest, fr'.ground_truth = [] := fun fr' hf =>
        hempty fr' (List.mem_cons_of_mem _ hf)
      simpa [attachGroundTruth] using
        ih hrest k (by simpa using Nat.lt_of_succ_lt_succ hi)

/-- Witness for `load_attaches_ground_truth_within_delta` on the sample
dataset: frame 0 is within 0.02 s of the log timestamp 0.005. -/
theorem load_attaches_ground_truth_within_delta_witness :
    ((attachGroundTruth (1 / 200) [9] sampleDataset.data).getD 0
        default).ground_truth =
      if |(sampleDataset.data.getD 0 default).image.stamp - 1 / 200| ≤
          admissible_delta_time then [9]
      else [] :=
  load_attaches_ground_truth_within_delta (1 / 200) [9] sampleDataset.data
    (by decide) 0 (by decide)

/-- C9: `TrackingDataset::Store` never overwrites an existing session: if
the observations bag or the ground-truth text file already exists at the
dataset path, it returns with the filesystem and the in-memory dataset
both unchanged. -/
theorem store_never_overwrites (fs : FileSys) (ds : TrackingDataset)
    (hex : fsExists fs (pathJoin ds.path observations_file) = true ∨
        fsExists fs (pathJoin ds.path ground_truth_file) = true) :
    Store fs ds = (fs, ds) := by
  unfold Store
  rcases hex with h | h <;> simp [h]

/-- Witness for `store_never_overwrites`: a bag file already exists at the
sample path. -/
theorem store_never_overwrites_witness :
    Store occupiedFs storeDataset = (occupiedFs, storeDataset) :=
  store_never_overwrites occupiedFs storeDataset (Or.inl (by decide))

/-- The bag-writing loop writes, for each frame in index order, the image
and then the camera info. -/
theorem bagWriteLoop_eq_flatMap (l : List DataFrame) :
    bagWriteLoop l = l.flatMap fun d =>
      [⟨image_topic, d.image.stamp, .image d.image⟩,
       ⟨info_topic, d.info.stamp, .info d.info⟩] := by
  induction l with
  | nil => rfl
  | cons d rest ih => simp [bagWriteLoop, ih]

/-- The ground-truth-writing loop writes exactly one line per frame with a
non-empty ground-truth vector, in index order. -/
theorem gtWriteLoop_eq_filter (l : List DataFrame) :
    gtWriteLoop l = (l.filter fun d => !d.ground_truth.isEmpty).map fun d =>
      ⟨d.image.stamp, d.ground_truth⟩ := by
  induction l with
  | nil => rfl
  | cons d rest ih =>
    cases hgt : d.ground_truth with
    | nil => simp [gtWriteLoop, hgt, ih]
    | cons a as => simp [gtWriteLoop, hgt, ih]

/-- C10: when no session exists at the path, `TrackingDataset::Store`
writes every stored frame's image and camera info to the bag file in index
order, and a ground-truth line for exactly the frames with a non-empty
ground-truth vector, also in index order. -/
theorem store_writes_frames_and_ground_truth (fs : FileSys)
    (ds : TrackingDataset)
    (hbag : fsExists fs (pathJoin ds.path observations_file) = false)
    (htxt : fsExists fs (pathJoin ds.path ground_truth_file) = false) :
    (Store fs ds).1.bagFiles =
      (pathJoin ds.path observations_file,
        ds.data.flatMap fun d =>
          [⟨image_topic, d.image.stamp, .image d.image⟩,
           ⟨info_topic, d.info.stamp, .info d.info⟩]) :: fs.bagFiles ∧
    (Store fs ds).1.txtFiles =
      (pathJoin ds.path ground_truth_file,
        (ds.data.filter fun d => !d.ground_truth.isEmpty).map fun d =>
          ⟨d.image.stamp, d.ground_truth⟩) :: fs.txtFiles := by
  unfold Store
  simp [hbag, htxt, bagWriteLoop_eq_flatMap, gtWriteLoop_eq_filter]

/-- Witness for `store_writes_frames_and_ground_truth`: storing the sample
dataset on an empty filesystem. -/
theorem store_writes_frames_and_ground_truth_witness :
    (Store emptyFs storeDataset).1.bagFiles =
      (pathJoin storeDataset.path observations_file,
        storeDataset.data.flatMap fun d =>
          [⟨image_topic, d.image.stamp, .image d.image⟩,
           ⟨info_topic, d.info.stamp, .info d.info⟩]) :: emptyFs.bagFiles ∧
    (Store emptyFs storeDataset).1.txtFiles =
      (pathJoin storeDataset.path ground_truth_file,
        (storeDataset.data.filter fun d => !d.ground_truth.isEmpty).map fun d =>
          ⟨d.image.stamp, d.ground_truth⟩) :: emptyFs.txtFiles :=
  store_writes_frames_and_ground_truth emptyFs storeDataset (by decide)
    (by decide)

/-- C1: requesting the GPU backend when the binary was not built with GPU
support makes `create_obsrv_model` fail with the unsupported-backend error,
makes `build` fail with that error once parameters validate and the
resource resolves, and for no parameter bundle does `build` return a
tracker (so the CPU observation model is never silently substituted). -/
theorem gpu_request_without_support_fails (env : BuildEnv) (p : Parameters)
    (hgpu : env.builtWithGpu = false) (hreq : p.use_gpu = true) :
    create_obsrv_model env.builtWithGpu p.use_gpu =
        .error .unsupportedBackend ∧
      (validateParameters p = none → env.resolves p.ori = true →
        build env p = .error .unsupportedBackend) ∧
      ∀ t : Tracker, build env p ≠ .ok t := by
  refine ⟨by rw [hgpu, hreq]; rfl, ?_, ?_⟩
  · intro hv hr
    unfold build
    rw [hv, hr, hgpu, hreq]
    rfl
  · intro t
    unfold build
    cases hv : validateParameters p with
    | some f => simp
    | none =>
      cases hr : env.resolves p.ori with
      | false => simp
      | true => rw [hgpu, hreq]; simp [create_obsrv_model]

/-- Witness for `gpu_request_without_support_fails` on the sample bundle
and a GPU-less build environment. -/
theorem gpu_request_without_support_fails_witness :
    create_obsrv_model sampleEnv.builtWithGpu sampleParams.use_gpu =
        .error .unsupportedBackend ∧
      (validateParameters sampleParams = none →
        sampleEnv.resolves sampleParams.ori = true →
        build sampleEnv sampleParams = .error .unsupportedBackend) ∧
      ∀ t : Tracker, build sampleEnv sampleParams ≠ .ok t :=
  gpu_request_without_support_fails sampleEnv sampleParams rfl rfl

/-- C3: a parameter bundle with exactly one field outside its documented
range makes validation report that field's name, and `build` fails with
`InvalidParameterError` naming it, returning no tracker in any
environment. -/
theorem invalid_parameter_fails_naming_field (p : Parameters)
    (f : ParamField) (hf : f.violated p = true)
    (hothers : ∀ g : ParamField, g ≠ f → g.violated p = false) :
    validateParameters p = some f.name ∧
      ∀ env : BuildEnv,
        build env p = .error (.invalidParameter f.name) ∧
          ∀ t : Tracker, build env p ≠ .ok t := by
  have hval : validateParameters p = some f.name := by
    cases f with
    | ut_alpha => simp [validateParameters, hf]
    | update_rate =>
      simp [validateParameters, hf,
        hothers ParamField.ut_alpha (by decide)]
    | bg_depth =>
      simp [validateParameters, hf,
        hothers ParamField.ut_alpha (by decide),
        hothers ParamField.update_rate (by decide)]
    | fg_noise_std =>
      simp [validateParameters, hf,
        hothers ParamField.ut_alpha (by decide),
        hothers ParamField.update_rate (by decide),
        hothers ParamField.bg_depth (by decide)]
    | bg_noise_std =>
      simp [validateParameters, hf,
        hothers ParamField.ut_alpha (by decide),
        hothers ParamField.update_rate (by decide),
        hothers ParamField.bg_depth (by decide),
        hothers ParamField.fg_noise_std (by decide)]
    | tail_weight =>
      simp [validateParameters, hf,
        hothers ParamField.ut_alpha (by decide),
        hothers ParamField.update_rate (by decide),
        hothers ParamField.bg_depth (by decide),
        hothers ParamField.fg_noise_std (by decide),
        hothers ParamField.bg_noise_std (by decide)]
    | uniform_tail =>
      simp [validateParameters, hf,
        hothers ParamField.ut_alpha (by decide),
        hothers ParamField.update_rate (by decide),
        hothers ParamField.bg_depth (by decide),
        hothers ParamField.fg_noise_std (by decide),
        hothers ParamField.bg_noise_std (by decide),
        hothers ParamField.tail_weight (by decide)]
    | sensors =>
      simp [validateParameters, hf,
        hothers ParamField.ut_alpha (by decide),
        hothers ParamField.update_rate (by decide),
        hothers ParamField.bg_depth (by decide),
        hothers ParamField.fg_noise_std (by decide),
        hothers ParamField.bg_noise_std (by decide),
        hothers ParamField.tail_weight (by decide),
        hothers ParamField.uniform_tail (by decide)]
  refine ⟨hval, fun env => ⟨?_, ?_⟩⟩
  · unfold build
    rw [hval]
  · intro t
    unfold build
    rw [hval]
    simp

/-- Witness for `invalid_parameter_fails_naming_field`: the bundle whose
only violation is `tail_weight = 1.5` is rejected naming
`observation.tail_weight`. -/
theorem invalid_parameter_fails_naming_field_witness :
    validateParameters badTailWeightParams =
        some ParamField.tail_weight.name ∧
      ∀ env : BuildEnv,
        build env badTailWeightParams =
            .error (.invalidParameter ParamField.tail_weight.name) ∧
          ∀ t : Tracker, build env badTailWeightParams ≠ .ok t :=
  invalid_parameter_fails_naming_field badTailWeightParams
    ParamField.tail_weight
    (by norm_num [ParamField.violated, badTailWeightParams, sampleObservation])
    (by
      intro g hg
      cases g with
      | ut_alpha =>
        norm_num [ParamField.violated, badTailWeightParams, sampleParams]
      | update_rate =>
        norm_num [ParamField.violated, badTailWeightParams, sampleParams]
      | bg_depth =>
        norm_num [ParamField.violated, badTailWeightParams, sampleObservation]
      | fg_noise_std =>
        norm_num [ParamField.violated, badTailWeightParams, sampleObservation]
      | bg_noise_std =>
        norm_num [ParamField.violated, badTailWeightParams, sampleObservation]
      | tail_weight => exact absurd rfl hg
      | uniform_tail =>
        norm_num [ParamField.violated, badTailWeightParams, sampleObservation]
      | sensors =>
        norm_num [ParamField.violated, badTailWeightParams, sampleObservation])

/-- C4: sigma-point generation is deterministic: two calls on identical
`(mean, covariance, ut_alpha)` inputs yield identical weighted state
points in the same order; the rule is a pure function with no hidden
random state. -/
theorem sigmaPoints_deterministic (n : ℕ) (mean₁ mean₂ : Vec n)
    (cov₁ cov₂ : Mat n) (a₁ a₂ : ℚ) (hm : mean₁ = mean₂) (hc : cov₁ = cov₂)
    (ha : a₁ = a₂) :
    sigmaPoints n mean₁ cov₁ a₁ = sigmaPoints n mean₂ cov₂ a₂ := by
  rw [hm, hc, ha]

/-- Witness for `sigmaPoints_deterministic` at a concrete
one-dimensional input. -/
theorem sigmaPoints_deterministic_witness :
    sigmaPoints 1 (fun _ => 2) 1 (6 / 5) = sigmaPoints 1 (fun _ => 2) 1 (6 / 5) :=
  sigmaPoints_deterministic 1 (fun _ => 2) (fun _ => 2) 1 1 (6 / 5) (6 / 5)
    rfl rfl rfl

/-- C7: a predict or update call that fails with a per-frame error
(`InvalidTimestepError`, `DimensionMismatchError`) aborts only that call:
the filter keeps the prior belief (mean and covariance) exactly as it was
and surfaces the error. -/
theorem frame_error_leaves_belief_untouched {n : ℕ} (m : FilterModel n)
    (b : Belief n) (dt : ℚ) (o : Obsrv) (e e' : FrameError)
    (hp : predictChecked m b dt = .error e)
    (hu : updateChecked m b o = .error e') :
    runPredict m b dt = (b, some e) ∧ runUpdate m b o = (b, some e') := by
  constructor
  · unfold runPredict
    rw [hp]
  · unfold runUpdate
    rw [hu]

/-- Witness for `frame_error_leaves_belief_untouched`: `Δt = 0` and a
sensor-count mismatch each leave the sample belief untouched. -/
theorem frame_error_leaves_belief_untouched_witness :
    runPredict sampleModel sampleBelief 0 =
        (sampleBelief, some FrameError.invalidTimestep) ∧
      runUpdate sampleModel sampleBelief mismatchedObsrv =
        (sampleBelief, some FrameError.dimensionMismatch) :=
  frame_error_leaves_belief_untouched sampleModel sampleBelief 0
    mismatchedObsrv FrameError.invalidTimestep FrameError.dimensionMismatch
    (by simp [predictChecked])
    (by simp [updateChecked, obsrvDimsOk, mismatchedObsrv, sampleModel])

/-- The Gaussian density is nonnegative whenever the standard deviation
is nonnegative. -/
theorem gaussianDensity_nonneg (m s y : ℝ) (hs : 0 ≤ s) :
    0 ≤ gaussianDensity m s y :=
  div_nonneg (Real.exp_pos _).le (mul_nonneg hs (Real.sqrt_nonneg _))

/-- C6: for every pixel, occlusion routing and observed depth, however
extreme, the per-pixel mixture likelihood is bounded below by the outlier
floor `tail_weight / (uniform_tail_max − uniform_tail_min)`. -/
theorem pixelLikelihood_outlier_floor (p : PixelModel) (occluded : Bool)
    (rendered y : ℝ) (htw0 : 0 ≤ p.tail_weight) (htw1 : p.tail_weight ≤ 1)
    (hminmax : p.uniform_tail_min < p.uniform_tail_max)
    (hfg : 0 ≤ p.fg_noise_std) (hbg : 0 ≤ p.bg_noise_std) :
    p.tail_weight / (p.uniform_tail_max - p.uniform_tail_min) ≤
      pixelLikelihood p occluded rendered y := by
  have hgb := gaussianDensity_nonneg p.bg_depth p.bg_noise_std y hbg
  have hgf := gaussianDensity_nonneg rendered p.fg_noise_std y hfg
  have hw : 0 ≤ 1 - p.tail_weight := by linarith
  cases occluded with
  | false =>
    have hmix : 0 ≤ (1 - p.tail_weight) *
        gaussianDensity rendered p.fg_noise_std y := mul_nonneg hw hgf
    simp only [pixelLikelihood, if_neg Bool.false_ne_true]
    rw [mul_one_div]
    linarith
  | true =>
    have hmix : 0 ≤ (1 - p.tail_weight) *
        gaussianDensity p.bg_depth p.bg_noise_std y := mul_nonneg hw hgb
    simp only [pixelLikelihood, eq_self_iff_true, if_true]
    rw [mul_one_div]
    linarith

/-- Witness for `pixelLikelihood_outlier_floor` at a concrete parameter
set, an occluded routing and a grossly extreme observed depth. -/
theorem pixelLikelihood_outlier_floor_witness :
    (1 / 50 : ℝ) / (5 - 1 / 2) ≤
      pixelLikelihood
        ⟨3, 1 / 100, 1 / 10, 1 / 50, 1 / 2, 5⟩ true 2 (-1000000) :=
  pixelLikelihood_outlier_floor ⟨3, 1 / 100, 1 / 10, 1 / 50, 1 / 2, 5⟩ true
    2 (-1000000) (by norm_num) (by norm_num) (by norm_num) (by norm_num)
    (by norm_num)

/-- Multiplying a rank-one self-outer-product matrix into a vector scales
the generating vector by the dot product. -/
theorem vecMulVec_self_mulVec {n : ℕ} (d x : Vec n) :
    Matrix.mulVec (Matrix.vecMulVec d d) x = Matrix.dotProduct d x • d := by
  ext i
  simp only [Matrix.mulVec, Matrix.dotProduct, Matrix.vecMulVec_apply,
    Pi.smul_apply, smul_eq_mul]
  rw [Finset.sum_mul]
  exact Finset.sum_congr rfl fun j _ => by ring

/-- The quadratic form of a rank-one self-outer-product matrix is a
square. -/
theorem dotProduct_vecMulVec_self {n : ℕ} (d x : Vec n) :
    Matrix.dotProduct x (Matrix.mulVec (Matrix.vecMulVec d d) x) =
      Matrix.dotProduct d x * Matrix.dotProduct d x := by
  rw [vecMulVec_self_mulVec, Matrix.dotProduct_smul, smul_eq_mul,
    Matrix.dotProduct_comm]

/-- Unfolding of `scatter` on a cons cell. -/
theorem scatter_cons {n : ℕ} (p : ℚ × Vec n) (pts : List (ℚ × Vec n))
    (μ : Vec n) :
    scatter (p :: pts) μ =
      p.1 • Matrix.vecMulVec (p.2 - μ) (p.2 - μ) + scatter pts μ := by
  simp [scatter]

/-- A self-outer-product matrix is symmetric. -/
theorem transpose_vecMulVec_self {n : ℕ} (d : Vec n) :
    Matrix.transpose (Matrix.vecMulVec d d) = Matrix.vecMulVec d d := by
  ext i j
  simp [Matrix.transpose_apply, Matrix.vecMulVec_apply, mul_comm]

/-- The weighted scatter matrix is symmetric. -/
theorem transpose_scatter {n : ℕ} (pts : List (ℚ × Vec n)) (μ : Vec n) :
    Matrix.transpose (scatter pts μ) = scatter pts μ := by
  induction pts with
  | nil => simp [scatter]
  | cons p rest ih =>
    rw [scatter_cons, Matrix.transpose_add, Matrix.transpose_smul,
      transpose_vecMulVec_self, ih]

/-- The weighted scatter matrix of nonnegatively weighted points has a
nonnegative quadratic form. -/
theorem dotProduct_scatter_nonneg {n : ℕ} (pts : List (ℚ × Vec n))
    (μ : Vec n) (hw : ∀ p ∈ pts, 0 ≤ p.1) (x : Vec n) :
    0 ≤ Matrix.dotProduct x (Matrix.mulVec (scatter pts μ) x) := by
  induction pts with
  | nil => simp [scatter]
  | cons p rest ih =>
    rw [scatter_cons, Matrix.add_mulVec, Matrix.dotProduct_add,
      Matrix.smul_mulVec_assoc, Matrix.dotProduct_smul, smul_eq_mul]
    have h1 : 0 ≤ p.1 := hw p (List.mem_cons_self p rest)
    have h2 := ih fun q hq => hw q (List.mem_cons_of_mem _ hq)
    have h3 : 0 ≤ Matrix.dotProduct x
        (Matrix.mulVec (Matrix.vecMulVec (p.2 - μ) (p.2 - μ)) x) := by
      rw [dotProduct_vecMulVec_self]
      exact mul_self_nonneg _
    exact add_nonneg (mul_nonneg h1 h3) h2

/-- The weighted scatter matrix of nonnegatively weighted points is a
valid covariance. -/
theorem isValidCov_scatter {n : ℕ} (pts : List (ℚ × Vec n)) (μ : Vec n)
    (hw : ∀ p ∈ pts, 0 ≤ p.1) : IsValidCov (scatter pts μ) :=
  ⟨transpose_scatter pts μ, dotProduct_scatter_nonneg pts μ hw⟩

/-- Re-symmetrization fixes symmetric matrices. -/
theorem symmetrize_of_symmetric {n : ℕ} (M : Mat n)
    (h : Matrix.transpose M = M) : symmetrize M = M := by
  unfold symmetrize
  rw [h, ← two_smul ℚ M, smul_smul]
  norm_num

/-- Re-symmetrization preserves valid covariances. -/
theorem isValidCov_symmetrize {n : ℕ} (M : Mat n) (h : IsValidCov M) :
    IsValidCov (symmetrize M) := by
  rw [symmetrize_of_symmetric M h.1]
  exact h

/-- The sum of valid covariances is a valid covariance. -/
theorem isValidCov_add {n : ℕ} (A B : Mat n) (hA : IsValidCov A)
    (hB : IsValidCov B) : IsValidCov (A + B) :=
  ⟨by rw [Matrix.transpose_add, hA.1, hB.1],
   fun x => by
    rw [Matrix.add_mulVec, Matrix.dotProduct_add]
    exact add_nonneg (hA.2 x) (hB.2 x)⟩

/-- A nonnegative multiple of a valid covariance is a valid covariance. -/
theorem isValidCov_smul {n : ℕ} (c : ℚ) (A : Mat n) (hc : 0 ≤ c)
    (hA : IsValidCov A) : IsValidCov (c • A) :=
  ⟨by rw [Matrix.transpose_smul, hA.1],
   fun x => by
    rw [Matrix.smul_mulVec_assoc, Matrix.dotProduct_smul, smul_eq_mul]
    exact mul_nonneg hc (hA.2 x)⟩

/-- Every sigma point carries a nonnegative weight. -/
theorem sigmaPoints_weight_nonneg (n : ℕ) (mean : Vec n) (cov : Mat n)
    (a : ℚ) : ∀ p ∈ sigmaPoints n mean cov a, 0 ≤ p.1 := by
  intro p hp
  have hw : (0 : ℚ) ≤ 1 / (2 * n + 1) := by positivity
  simp only [sigmaPoints, List.mem_cons, List.mem_flatMap,
    List.not_mem_nil, or_false] at hp
  rcases hp with rfl | ⟨j, _, rfl | rfl⟩ <;> exact hw

/-- The identity matrix is a valid covariance. -/
theorem isValidCov_one {n : ℕ} : IsValidCov (1 : Mat n) :=
  ⟨Matrix.transpose_one, fun x => by
    rw [Matrix.one_mulVec]
    exact Finset.sum_nonneg fun i _ => mul_self_nonneg (x i)⟩

/-- C5: after a predict and after an update on a belief whose covariance
is valid (symmetric positive semi-definite), the stored covariance is
again symmetric positive semi-definite, given a valid process-noise
covariance, a positive time step, an update rate in `[0, 1]` and a
nonnegative likelihood score. -/
theorem belief_covariance_stays_valid {n : ℕ} (m : FilterModel n)
    (b : Belief n) (dt : ℚ) (o : Obsrv) (hb : IsValidCov b.cov)
    (hQ : IsValidCov m.processNoiseCov) (hdt : 0 < dt)
    (hr0 : 0 ≤ m.update_rate) (hr1 : m.update_rate ≤ 1)
    (hL : ∀ (ob : Obsrv) (s : Vec n), 0 ≤ m.likelihood ob s) :
    IsValidCov (predictStep m b dt).cov ∧
      IsValidCov (updateStep m b o).cov := by
  have hpts := sigmaPoints_weight_nonneg n b.mean b.cov m.ut_alpha
  constructor
  · have hpush : ∀ q ∈ (sigmaPoints n b.mean b.cov m.ut_alpha).map
        (fun p => (p.1, m.transition dt p.2)), 0 ≤ q.1 := by
      intro q hq
      rcases List.mem_map.mp hq with ⟨p, hp, rfl⟩
      exact hpts p hp
    exact isValidCov_symmetrize _
      (isValidCov_add _ _
        (isValidCov_symmetrize _ (isValidCov_scatter _ _ hpush))
        (isValidCov_smul dt _ hdt.le hQ))
  · have hscored : ∀ q ∈ (sigmaPoints n b.mean b.cov m.ut_alpha).map
        (fun p => (p.1 * m.likelihood o p.2, p.2)), 0 ≤ q.1 := by
      intro q hq
      rcases List.mem_map.mp hq with ⟨p, hp, rfl⟩
      exact mul_nonneg (hpts p hp) (hL o p.2)
    have htotal : 0 ≤ (((sigmaPoints n b.mean b.cov m.ut_alpha).map
        (fun p => (p.1 * m.likelihood o p.2, p.2))).map Prod.fst).sum := by
      apply List.sum_nonneg
      intro a ha
      rcases List.mem_map.mp ha with ⟨q, hq, rfl⟩
      exact hscored q hq
    have hre : ∀ q ∈ (((sigmaPoints n b.mean b.cov m.ut_alpha).map
        (fun p => (p.1 * m.likelihood o p.2, p.2))).map
          (fun p => (p.1 / (((sigmaPoints n b.mean b.cov m.ut_alpha).map
            (fun p => (p.1 * m.likelihood o p.2, p.2))).map Prod.fst).sum,
            p.2))), 0 ≤ q.1 := by
      intro q hq
      rcases List.mem_map.mp hq with ⟨r, hr, rfl⟩
      exact div_nonneg (hscored r hr) htotal
    exact isValidCov_symmetrize _
      (isValidCov_add _ _
        (isValidCov_smul _ _ (by linarith) hb)
        (isValidCov_smul _ _ hr0
          (isValidCov_symmetrize _ (isValidCov_scatter _ _ hre))))

/-- Witness for `belief_covariance_stays_valid` on the sample
one-dimensional model and identity-covariance belief. -/
theorem belief_covariance_stays_valid_witness :
    IsValidCov (predictStep sampleModel sampleBelief 1).cov ∧
      IsValidCov (updateStep sampleModel sampleBelief sampleObsrv).cov :=
  belief_covariance_stays_valid sampleModel sampleBelief 1 sampleObsrv
    isValidCov_one isValidCov_one (by norm_num)
    (by norm_num [sampleModel]) (by norm_num [sampleModel])
    (fun _ _ => zero_le_one)

end Dbot
